import Mathlib

/-!
Shallow embedding of the QR-scan orchestrator (`src/qrcode/qr-scanner.js`).

The source is a single class `QrScanner` whose core operation `scanImage`
composes: engine acquisition (`createQrEngine`), image loading, canvas
projection (`_drawToCanvas`), a correlation-id worker protocol
(`_postWorkerMessageSync` and the message/error listener closures), a native
detector path with a capability-downgrade retry, a region-less retry in the
`catch` clause, and a `close` teardown in the `finally` clause.

External effects (image loading, worker replies, detector results, the
capability probes) are supplied by an explicit environment; JavaScript
truthiness of numbers (`0` is falsy) and strict `!== null` checks are modelled
explicitly.  Promise rejection is modelled with `Except` / a `rejected`
outcome carrying the thrown string.  The bounded recursion of `scanImage`
(capability-downgrade retry and region-less retry) is modelled with fuel; a
distinguished `outOfFuel` outcome marks runs the model did not finish (the
real recursion depth is at most four, so any fuel above that is enough).
-/

namespace QrScannerModel

/-- JavaScript `a || b` on an optional number: `0`, like `undefined`, is falsy. -/
def jsOrNat (v : Option Nat) (dflt : Nat) : Nat :=
  match v with
  | some n => if n = 0 then dflt else n
  | none => dflt

/-- `options.timeout || 10000` (line 115 and line 128 of the source). -/
def effectiveTimeout (timeout : Option Nat) : Nat :=
  jsOrNat timeout 10000

/-- Whether `pat` is an initial segment of `l`. -/
def startsWithChars : List Char → List Char → Bool
  | [], _ => true
  | _ :: _, [] => false
  | a :: as, b :: bs => (a = b) && startsWithChars as bs

/-- Whether `pat` occurs contiguously somewhere in `l`. -/
def containsChars : List Char → List Char → Bool
  | l, pat =>
    match l with
    | [] => pat.isEmpty
    | _ :: rest => startsWithChars pat l || containsChars rest pat

/-- Case-sensitive substring test: `/pat/.test(s)` for a literal pattern. -/
def strContains (s pat : String) : Bool :=
  containsChars s.toList pat.toList

/-- ASCII lower-casing of one character (enough for the literal patterns the
source tests case-insensitively). -/
def lowerChar (c : Char) : Char :=
  if 65 ≤ c.toNat ∧ c.toNat ≤ 90 then Char.ofNat (c.toNat + 32) else c

/-- Case-insensitive substring test: `/pat/i.test(s)` for a literal pattern. -/
def strContainsCI (s pat : String) : Bool :=
  containsChars (s.toList.map lowerChar) (pat.toList.map lowerChar)

/-- JavaScript `parseInt` restricted to the version strings fed to it
(line 184): the leading decimal digits, `none` when there are none (NaN). -/
def jsParseInt (s : String) : Option Nat :=
  let digits := s.toList.takeWhile (fun c => c.isDigit)
  if digits.isEmpty then none
  else some (digits.foldl (fun n c => n * 10 + (c.toNat - 48)) 0)

/-- `QrScanner.NO_QR_CODE_FOUND` (line 46). -/
def NO_QR_CODE_FOUND : String := "No QR code found"

/-- `QrScanner.ScanResult` : `{data: string}`. -/
structure ScanResult where
  data : String
deriving DecidableEq, Repr

/-- How one `scanImage` promise settles.  `outOfFuel` is a model artefact for
runs whose (bounded) recursion exceeded the fuel given to the model. -/
inductive Outcome where
  | resolved (result : ScanResult)
  | rejected (error : String)
  | outOfFuel
deriving DecidableEq, Repr

/-- The engine handle: `Worker` or `BarcodeDetector` (tagged by an identity so
distinct created engines can be told apart in the message trace). -/
inductive Engine where
  | worker (wid : Nat)
  | detector (did : Nat)
deriving DecidableEq, Repr

/-- `QrScanner.ScanRegion` : all fields optional numbers. -/
structure ScanRegion where
  x : Option Nat := none
  y : Option Nat := none
  width : Option Nat := none
  height : Option Nat := none
  downScaledWidth : Option Nat := none
  downScaledHeight : Option Nat := none
deriving DecidableEq, Repr

/-- A canvas: mutable width/height plus its pixel content (abstract). -/
structure Canvas where
  width : Nat
  height : Nat
  content : List Nat
deriving DecidableEq, Repr

/-- Assigning `canvas.width` clears the canvas content (the behaviour the
source comments on at lines 211-212). -/
def Canvas.setWidth (c : Canvas) (w : Nat) : Canvas :=
  ⟨w, c.height, []⟩

/-- Assigning `canvas.height` clears the canvas content. -/
def Canvas.setHeight (c : Canvas) (h : Nat) : Canvas :=
  ⟨c.width, h, []⟩

/-- A loaded drawable image: only its intrinsic dimensions matter here. -/
structure Image where
  width : Nat
  height : Nat
deriving DecidableEq, Repr

/-- The `options` argument of `scanImage` (lines 53-60).  A `qrEngine` that is
a promise is modelled as the engine it resolves to. -/
structure Options where
  scanRegion : Option ScanRegion := none
  qrEngine : Option Engine := none
  canvas : Option Canvas := none
  disallowCanvasResizing : Bool := false
  alsoTryWithoutScanRegion : Bool := false
  timeout : Option Nat := none
deriving DecidableEq, Repr

/-! ### Canvas projection (`_drawToCanvas`, lines 191-225) -/

/-- `scanRegion && scanRegion.x ? scanRegion.x : 0` (line 199). -/
def scanRegionXOf (scanRegion : Option ScanRegion) : Nat :=
  match scanRegion with
  | some r => jsOrNat r.x 0
  | none => 0

/-- `scanRegion && scanRegion.y ? scanRegion.y : 0` (line 200). -/
def scanRegionYOf (scanRegion : Option ScanRegion) : Nat :=
  match scanRegion with
  | some r => jsOrNat r.y 0
  | none => 0

/-- `scanRegion && scanRegion.width ? scanRegion.width : image.width` (line 201). -/
def scanRegionWidthOf (scanRegion : Option ScanRegion) (image : Image) : Nat :=
  match scanRegion with
  | some r => jsOrNat r.width image.width
  | none => image.width

/-- `scanRegion && scanRegion.height ? scanRegion.height : image.height` (line 202). -/
def scanRegionHeightOf (scanRegion : Option ScanRegion) (image : Image) : Nat :=
  match scanRegion with
  | some r => jsOrNat r.height image.height
  | none => image.height

/-- `canvasWidth` of lines 205-207: the downscale target when truthy, else the
scan-region width. -/
def canvasTargetWidth (scanRegion : Option ScanRegion) (image : Image) : Nat :=
  match scanRegion with
  | some r => jsOrNat r.downScaledWidth (scanRegionWidthOf scanRegion image)
  | none => scanRegionWidthOf scanRegion image

/-- `canvasHeight` of lines 208-210. -/
def canvasTargetHeight (scanRegion : Option ScanRegion) (image : Image) : Nat :=
  match scanRegion with
  | some r => jsOrNat r.downScaledHeight (scanRegionHeightOf scanRegion image)
  | none => scanRegionHeightOf scanRegion image

/-- The dimension-setting phase of `_drawToCanvas` (lines 204-219): skipped
entirely when resizing is disallowed; each dimension is written only when it
differs from the current value (a write clears the content). -/
def resizeCanvas (scanRegion : Option ScanRegion) (image : Image) (canvas : Canvas)
    (disallowCanvasResizing : Bool) : Canvas :=
  if disallowCanvasResizing then canvas
  else
    let canvasWidth := canvasTargetWidth scanRegion image
    let canvasHeight := canvasTargetHeight scanRegion image
    let c1 := if canvas.width ≠ canvasWidth then canvas.setWidth canvasWidth else canvas
    let c2 := if c1.height ≠ canvasHeight then c1.setHeight canvasHeight else c1
    c2

/-- Abstract pixel output of `context.drawImage(image, sx, sy, sw, sh, 0, 0, dw, dh)`
(line 223): a deterministic encoding of its arguments. -/
def drawnPixels (image : Image) (sx sy sw sh dw dh : Nat) : List Nat :=
  [image.width, image.height, sx, sy, sw, sh, dw, dh]

/-- `_drawToCanvas` (lines 191-225): defaults the canvas to a freshly created
element (300x150, blank), runs the resize phase, then draws the selected
source rectangle over the full canvas extent.  The 2-D context is a view of
the canvas, so only the canvas is returned. -/
def _drawToCanvas (image : Image) (scanRegion : Option ScanRegion)
    (canvas : Option Canvas) (disallowCanvasResizing : Bool) : Canvas :=
  let c0 := match canvas with
    | some c => c
    | none => ⟨300, 150, []⟩
  let c1 := resizeCanvas scanRegion image c0 disallowCanvasResizing
  { c1 with
    content := drawnPixels image (scanRegionXOf scanRegion) (scanRegionYOf scanRegion)
      (scanRegionWidthOf scanRegion image) (scanRegionHeightOf scanRegion image)
      c1.width c1.height }

/-! ### Engine selection (`createQrEngine`, lines 166-189) -/

/-- One entry of `navigator.userAgentData.brands`. -/
structure Brand where
  brand : String
  version : String
deriving DecidableEq, Repr

/-- Result of `getHighEntropyValues(['architecture', 'platformVersion'])`. -/
structure HighEntropyValues where
  architecture : Option String := none
  platformVersion : Option String := none
deriving DecidableEq, Repr

/-- `navigator.userAgentData`; `highEntropy` is how the high-entropy query
settles (`Except.error` = the promise rejected, handled by `.catch`). -/
structure UserAgentData where
  platform : String
  brands : List Brand
  highEntropy : Except Unit HighEntropyValues
deriving Repr

/-- Environment consulted by one `createQrEngine` call.  `supportedFormats` is
how `BarcodeDetector.getSupportedFormats()` settles (a rejection propagates
out of `createQrEngine`, which is not wrapped in any `catch`).  `workerId` and
`detectorId` are the identities of the engine this call would create. -/
structure EngineEnv where
  barcodeDetectorInWindow : Bool
  hasGetSupportedFormats : Bool
  supportedFormats : Except String (List String)
  userAgentData : Option UserAgentData
  workerId : Nat
  detectorId : Nat
deriving Repr

/-- The `isChromiumOnMacWithArmVentura` probe (lines 178-185): short-circuits
on a falsy `userAgentData`, on a non-Chromium brand list, and on a
non-macOS platform; the awaited high-entropy query defaults a missing
architecture to `'arm'` and a missing platform version to `'13'`, and its
`.catch(() => true)` turns a rejection into `true`. -/
def isChromiumOnMacWithArmVentura (userAgentData : Option UserAgentData) : Bool :=
  match userAgentData with
  | none => false
  | some uad =>
    if uad.brands.any (fun b => strContainsCI b.brand "chromium")
        && (strContainsCI uad.platform "macos" || strContainsCI uad.platform "mac os") then
      match uad.highEntropy with
      | .error _ => true
      | .ok hev =>
        let architecture := match hev.architecture with
          | some a => if a = "" then "arm" else a
          | none => "arm"
        let platformVersion := match hev.platformVersion with
          | some v => if v = "" then "13" else v
          | none => "13"
        strContainsCI architecture "arm"
          && (match jsParseInt platformVersion with
              | some n => 13 ≤ n
              | none => false)
    else false

/-- `createQrEngine` (lines 166-189).  `Except.error` models the returned
promise rejecting (only possible through `getSupportedFormats()` rejecting;
the worker-module import is taken to succeed). -/
def createQrEngine (disableBarcodeDetector : Bool) (env : EngineEnv) :
    Except String Engine :=
  if disableBarcodeDetector then .ok (.worker env.workerId)
  else if !env.barcodeDetectorInWindow || !env.hasGetSupportedFormats then
    .ok (.worker env.workerId)
  else
    match env.supportedFormats with
    | .error e => .error e
    | .ok formats =>
      if !formats.contains "qr_code" then .ok (.worker env.workerId)
      else if isChromiumOnMacWithArmVentura env.userAgentData then
        .ok (.worker env.workerId)
      else .ok (.detector env.detectorId)

/-! ### Worker channel protocol (lines 80-123, 278-298) -/

/-- Process-wide mutable statics of the class, plus `callCount`, model
bookkeeping that indexes the per-invocation environment stream. -/
structure ProcState where
  disableBarcodeDetector : Bool := false
  workerMessageId : Nat := 0
  callCount : Nat := 0
deriving DecidableEq, Repr

/-- An observable posting: an actual `postMessage` to a worker carrying the
correlation id and type, or a call on a non-worker / absent engine that sends
nothing and returns `-1`. -/
inductive TraceEvent where
  | workerMessage (wid : Nat) (id : Nat) (msgType : String)
  | noopPost (msgType : String)
deriving DecidableEq, Repr

/-- `_postWorkerMessageSync` (lines 288-298): `-1` and no message for a
non-worker engine; otherwise the current counter value is used as the id,
the counter is incremented, and the message is posted. -/
def _postWorkerMessageSync (qrEngine : Engine) (msgType : String) (s : ProcState) :
    Int × ProcState × List TraceEvent :=
  match qrEngine with
  | .detector _ => (-1, s, [.noopPost msgType])
  | .worker w =>
    let id := s.workerMessageId
    ((id : Int), { s with workerMessageId := id + 1 }, [.workerMessage w id msgType])

/-- `_postWorkerMessage` (lines 278-285): awaits the engine reference and
forwards to the sync version; an absent reference (`undefined`) fails the
`instanceof Worker` test and sends nothing. -/
def _postWorkerMessage (engineRef : Option Engine) (msgType : String) (s : ProcState) :
    ProcState × List TraceEvent :=
  match engineRef with
  | some e =>
    let r := _postWorkerMessageSync e msgType s
    (r.2.1, r.2.2)
  | none => (s, [.noopPost msgType])

/-- The argument passed to the `onError` listener (line 106): absent/falsy,
an `ErrorEvent` with a (possibly empty) `message`, or a plain string (the
timer passes `'timeout'`). -/
inductive ErrorArg where
  | noEvent
  | event (message : String)
  | str (s : String)
deriving DecidableEq, Repr

/-- `!error ? 'Unknown Error' : (error.message || error)` (line 110), with
JavaScript coercions: an empty string is falsy, an `ErrorEvent` whose message
is empty stringifies to `[object ErrorEvent]`, a string has no `.message`. -/
def errorMessageOf : ErrorArg → String
  | .noEvent => "Unknown Error"
  | .event message => if message = "" then "[object ErrorEvent]" else message
  | .str s => if s = "" then "Unknown Error" else s

/-- The one-shot listener pair plus pending timer of a worker request
(lines 87-115). -/
structure PendingRequest where
  expectedResponseId : Int
  messageListenerAttached : Bool
  errorListenerAttached : Bool
  timeoutPending : Bool
deriving DecidableEq, Repr

/-- The `onMessage` closure (lines 91-105): a message whose id differs from
the expected id returns immediately (listeners and timer untouched, promise
still pending); a matching message tears both listeners down, clears the
timer, and settles by the strict `!== null` test on its data field. -/
def onMessage (p : PendingRequest) (eventId : Int) (eventData : Option String) :
    PendingRequest × Option Outcome :=
  if eventId = p.expectedResponseId then
    ({ p with
        messageListenerAttached := false
        errorListenerAttached := false
        timeoutPending := false },
      some (match eventData with
        | some d => .resolved ⟨d⟩
        | none => .rejected NO_QR_CODE_FOUND))
  else (p, none)

/-- A channel event: a worker message `{id, data}` or an error event. -/
inductive ChanEvent where
  | msg (id : Int) (data : Option String)
  | err (arg : ErrorArg)
deriving DecidableEq, Repr

/-- A channel event with its arrival time (ms after the request was sent). -/
structure TimedEvent where
  time : Nat
  ev : ChanEvent
deriving DecidableEq, Repr

/-- Whether an event would settle a pending request with this expected id:
error events always do, messages only when their id matches (lines 91-112). -/
def settlesFor (expectedResponseId : Int) : ChanEvent → Bool
  | .msg id _ => id = expectedResponseId
  | .err _ => true

/-- How the worker-request promise (lines 87-123) settles against a
chronological event stream: the timer (firing at `deadline` with
`onError('timeout')`) wins over any event not strictly earlier; mismatched
message ids are skipped (the listeners stay attached); the first error event
or matching message settles the promise as `onError` / `onMessage` do. -/
def settleWorker (expectedResponseId : Int) (deadline : Nat) :
    List TimedEvent → Outcome
  | [] => .rejected ("Scanner error: " ++ errorMessageOf (.str "timeout"))
  | te :: rest =>
    if deadline ≤ te.time then
      .rejected ("Scanner error: " ++ errorMessageOf (.str "timeout"))
    else
      match te.ev with
      | .msg id data =>
        if id = expectedResponseId then
          match data with
          | some d => .resolved ⟨d⟩
          | none => .rejected NO_QR_CODE_FOUND
        else settleWorker expectedResponseId deadline rest
      | .err arg => .rejected ("Scanner error: " ++ errorMessageOf arg)

/-! ### The scan orchestrator (`scanImage`, lines 50-164) -/

/-- Environment consulted by one `scanImage` invocation: the engine-selection
environment, how `_loadImage` settles, the worker channel events that would
answer this invocation's decode request, and when and how the native
detector's `detect` call settles (`detectDelay` past the deadline means it
did not settle in time and the timeout racer wins). -/
structure AttemptEnv where
  engineEnv : EngineEnv
  imageLoad : Except String Image
  workerEvents : List TimedEvent
  detectDelay : Nat
  detectorResult : Except String (List String)
deriving Repr

/-- Result of one `scanImage` invocation: its settled outcome, the process
state afterwards, and the chronological posting trace. -/
structure ScanOutput where
  outcome : Outcome
  state : ProcState
  trace : List TraceEvent
deriving Repr

/-- The options of the capability-downgrade retry (lines 140-145): region,
canvas and the two flags are carried over; `qrEngine` and `timeout` are not
passed. -/
def capabilityRetryOptions (scanRegion : Option ScanRegion) (canvas : Canvas)
    (disallowCanvasResizing alsoTryWithoutScanRegion : Bool) : Options :=
  { scanRegion := scanRegion
    qrEngine := none
    canvas := some canvas
    disallowCanvasResizing := disallowCanvasResizing
    alsoTryWithoutScanRegion := alsoTryWithoutScanRegion
    timeout := none }

/-- The options of the region-less retry (lines 155-158): the local engine and
canvas references and the resize flag are carried over; `scanRegion`,
`alsoTryWithoutScanRegion` and `timeout` are not passed. -/
def regionlessRetryOptions (engineRef : Option Engine) (canvasRef : Option Canvas)
    (disallowCanvasResizing : Bool) : Options :=
  { scanRegion := none
    qrEngine := engineRef
    canvas := canvasRef
    disallowCanvasResizing := disallowCanvasResizing
    alsoTryWithoutScanRegion := false
    timeout := none }

/-- The native-detector decode step (lines 125-150): a race of the timer
against `detect`.  When `detect` settles in time: an array destructure of the
first result, resolving with its `rawValue` or `NO_QR_CODE_FOUND`; a
rejection whose message matches `/not implemented|service unavailable/`
(case-sensitive) sets the sticky flag and recursively rescans without the
broken engine; any other rejection is rethrown as `Scanner error: <message>`. -/
def detectorDecode (recurse : Options → ProcState → ScanOutput)
    (scanRegion : Option ScanRegion) (canvas : Canvas)
    (disallowCanvasResizing alsoTryWithoutScanRegion : Bool)
    (deadline detectDelay : Nat) (detectResult : Except String (List String))
    (s : ProcState) : ScanOutput :=
  if deadline ≤ detectDelay then
    ⟨.rejected "Scanner error: timeout", s, []⟩
  else
    match detectResult with
    | .ok results =>
      ⟨.resolved ⟨match results.head? with
        | some rawValue => rawValue
        | none => NO_QR_CODE_FOUND⟩, s, []⟩
    | .error errorMessage =>
      if strContains errorMessage "not implemented"
          || strContains errorMessage "service unavailable" then
        recurse
          (capabilityRetryOptions scanRegion canvas disallowCanvasResizing
            alsoTryWithoutScanRegion)
          { s with disableBarcodeDetector := true }
      else ⟨.rejected ("Scanner error: " ++ errorMessage), s, []⟩

/-- The `finally` clause body (lines 159-163): when the engine was not
externally supplied, post `close` to the local engine reference (which is
absent when the combined acquisition step failed before assigning it). -/
def finallyClose (gotExternalEngine : Bool) (engineRef : Option Engine)
    (s : ProcState) : ProcState × List TraceEvent :=
  if gotExternalEngine then (s, [])
  else _postWorkerMessage engineRef "close" s

/-- The `catch`/`finally` wrapper of `scanImage` (lines 153-163): a rejection
with a scan region and the fallback flag set triggers exactly one region-less
retry (whose own fallback flag is off); every non-`outOfFuel` path then runs
the `finally` close.  `engineRef`/`canvasRef` are the local variables at the
time the `try` block completed. -/
def catchAndFinally (recurse : Options → ProcState → ScanOutput) (opts : Options)
    (gotExternalEngine : Bool) (engineRef : Option Engine) (canvasRef : Option Canvas)
    (tryOutcome : Outcome) (s : ProcState) (tr : List TraceEvent) : ScanOutput :=
  match tryOutcome with
  | .outOfFuel => ⟨.outOfFuel, s, tr⟩
  | .resolved r =>
    let p := finallyClose gotExternalEngine engineRef s
    ⟨.resolved r, p.1, tr ++ p.2⟩
  | .rejected e =>
    if opts.scanRegion.isNone || !opts.alsoTryWithoutScanRegion then
      let p := finallyClose gotExternalEngine engineRef s
      ⟨.rejected e, p.1, tr ++ p.2⟩
    else
      let retry := recurse
        (regionlessRetryOptions engineRef canvasRef opts.disallowCanvasResizing) s
      let p := finallyClose gotExternalEngine engineRef retry.state
      ⟨retry.outcome, p.1, tr ++ retry.trace ++ p.2⟩

/-- The worker decode step (lines 80-123): an internally created engine first
receives the `inversionMode` message; the decode request is posted and its id
recorded; the promise settles against the event stream and the timer. -/
def workerDecode (gotExternalEngine : Bool) (w : Nat) (deadline : Nat)
    (events : List TimedEvent) (s : ProcState) : ScanOutput :=
  let step1 :=
    if !gotExternalEngine then
      let r := _postWorkerMessageSync (.worker w) "inversionMode" s
      (r.2.1, r.2.2)
    else (s, ([] : List TraceEvent))
  let r2 := _postWorkerMessageSync (.worker w) "decode" step1.1
  ⟨settleWorker r2.1 deadline events, r2.2.1, step1.2 ++ r2.2.2⟩

/-- `scanImage` (lines 50-164), by fuel.  One invocation consumes the
environment indexed by its `callCount`.  `Promise.all` of engine acquisition
and image loading either yields both (assigning the local engine variable) or
rejects, leaving the local engine variable at the caller-supplied value; the
drawn canvas and the engine tag then select the decode step, and the
`catch`/`finally` wrapper finishes the call. -/
def scanImage (world : Nat → AttemptEnv) : Nat → Options → ProcState → ScanOutput
  | 0, _, s => ⟨.outOfFuel, s, []⟩
  | n + 1, opts, s0 =>
    let env := world s0.callCount
    let s := { s0 with callCount := s0.callCount + 1 }
    let gotExternalEngine := opts.qrEngine.isSome
    let engineResult : Except String Engine :=
      match opts.qrEngine with
      | some e => .ok e
      | none => createQrEngine s.disableBarcodeDetector env.engineEnv
    match env.imageLoad, engineResult with
    | .error msg, _ =>
      catchAndFinally (scanImage world n) opts gotExternalEngine opts.qrEngine
        opts.canvas (.rejected msg) s []
    | .ok _, .error msg =>
      catchAndFinally (scanImage world n) opts gotExternalEngine opts.qrEngine
        opts.canvas (.rejected msg) s []
    | .ok image, .ok engine =>
      let canvas := _drawToCanvas image opts.scanRegion opts.canvas
        opts.disallowCanvasResizing
      let attempt :=
        match engine with
        | .worker w =>
          workerDecode gotExternalEngine w (effectiveTimeout opts.timeout)
            env.workerEvents s
        | .detector _ =>
          detectorDecode (scanImage world n) opts.scanRegion canvas
            opts.disallowCanvasResizing opts.alsoTryWithoutScanRegion
            (effectiveTimeout opts.timeout) env.detectDelay env.detectorResult s
      catchAndFinally (scanImage world n) opts gotExternalEngine (some engine)
        (some canvas) attempt.outcome attempt.state attempt.trace

/-! ### Observations used by the statements -/

/-- Run a sequence of `_postWorkerMessageSync` calls, collecting the trace. -/
def postSeq (s : ProcState) : List (Engine × String) → List TraceEvent
  | [] => []
  | (e, ty) :: rest =>
    let r := _postWorkerMessageSync e ty s
    r.2.2 ++ postSeq r.2.1 rest

/-- The correlation ids of the messages actually posted in a trace. -/
def tracePostedIds (tr : List TraceEvent) : List Nat :=
  tr.filterMap fun ev => match ev with
    | .workerMessage _ id _ => some id
    | .noopPost _ => none

/-- Whether a trace event is the `close` teardown of the given engine: an
actual `close` message for a worker; for a detector (which has no message
channel) the posting call that sends nothing. -/
def isCloseEventFor (e : Engine) (ev : TraceEvent) : Bool :=
  match e, ev with
  | .worker w, .workerMessage w' _ ty => w' = w && ty = "close"
  | .detector _, .noopPost ty => ty = "close"
  | _, _ => false

/-- Whether a trace event is an actual `close` message posted to some worker. -/
def isWorkerClose : TraceEvent → Bool
  | .workerMessage _ _ ty => ty = "close"
  | .noopPost _ => false

/-- How many of a sequence of posts address a worker (and hence consume an id). -/
def countWorkerPosts : List (Engine × String) → Nat
  | [] => 0
  | (.worker _, _) :: rest => countWorkerPosts rest + 1
  | (.detector _, _) :: rest => countWorkerPosts rest

/-! ### Helper lemmas -/

theorem postSync_flag (e : Engine) (ty : String) (s : ProcState) :
    (_postWorkerMessageSync e ty s).2.1.disableBarcodeDetector = s.disableBarcodeDetector := by
  cases e <;> rfl

theorem postMsg_flag (er : Option Engine) (ty : String) (s : ProcState) :
    (_postWorkerMessage er ty s).1.disableBarcodeDetector = s.disableBarcodeDetector := by
  cases er with
  | none => rfl
  | some e => cases e <;> rfl

theorem finallyClose_flag (g : Bool) (er : Option Engine) (s : ProcState) :
    (finallyClose g er s).1.disableBarcodeDetector = s.disableBarcodeDetector := by
  unfold finallyClose
  split
  · rfl
  · exact postMsg_flag er "close" s

theorem catchAndFinally_flag (recurse : Options → ProcState → ScanOutput) (opts : Options)
    (g : Bool) (er : Option Engine) (cr : Option Canvas) (o : Outcome) (s : ProcState)
    (tr : List TraceEvent)
    (hrec : ∀ o2 s2, s2.disableBarcodeDetector = true →
      (recurse o2 s2).state.disableBarcodeDetector = true)
    (hs : s.disableBarcodeDetector = true) :
    (catchAndFinally recurse opts g er cr o s tr).state.disableBarcodeDetector = true := by
  cases o with
  | outOfFuel => simpa [catchAndFinally] using hs
  | resolved r => simpa [catchAndFinally, finallyClose_flag] using hs
  | rejected e =>
    simp only [catchAndFinally]
    split
    · simpa [finallyClose_flag] using hs
    · simp only [finallyClose_flag]
      exact hrec _ _ hs

theorem workerDecode_flag (g : Bool) (w : Nat) (dl : Nat) (evs : List TimedEvent)
    (s : ProcState) :
    (workerDecode g w dl evs s).state.disableBarcodeDetector = s.disableBarcodeDetector := by
  unfold workerDecode
  cases g <;> simp [_postWorkerMessageSync]

theorem detectorDecode_flag (recurse : Options → ProcState → ScanOutput)
    (sr : Option ScanRegion) (c : Canvas) (dr at2 : Bool) (dl delay : Nat)
    (res : Except String (List String)) (s : ProcState)
    (hrec : ∀ o2 s2, s2.disableBarcodeDetector = true →
      (recurse o2 s2).state.disableBarcodeDetector = true)
    (hs : s.disableBarcodeDetector = true) :
    (detectorDecode recurse sr c dr at2 dl delay res s).state.disableBarcodeDetector = true := by
  unfold detectorDecode
  split
  · exact hs
  · match res with
    | .ok results => exact hs
    | .error msg =>
      simp only
      split
      · exact hrec _ _ rfl
      · exact hs

theorem scanImage_flag_mono (world : Nat → AttemptEnv) :
    ∀ (n : Nat) (opts : Options) (s : ProcState), s.disableBarcodeDetector = true →
      (scanImage world n opts s).state.disableBarcodeDetector = true := by
  intro n
  induction n with
  | zero => intro opts s hs; simpa [scanImage] using hs
  | succ n ih =>
    intro opts s hs
    simp only [scanImage]
    split
    · exact catchAndFinally_flag _ _ _ _ _ _ _ _ (fun o2 s2 h2 => ih o2 s2 h2) hs
    · exact catchAndFinally_flag _ _ _ _ _ _ _ _ (fun o2 s2 h2 => ih o2 s2 h2) hs
    · apply catchAndFinally_flag _ _ _ _ _ _ _ _ (fun o2 s2 h2 => ih o2 s2 h2)
      split
      · simpa [workerDecode_flag] using hs
      · exact detectorDecode_flag _ _ _ _ _ _ _ _ _ (fun o2 s2 h2 => ih o2 s2 h2) hs

theorem settleWorker_ne_outOfFuel (id : Int) (dl : Nat) :
    ∀ evs : List TimedEvent, settleWorker id dl evs ≠ .outOfFuel := by
  intro evs
  induction evs with
  | nil => simp [settleWorker]
  | cons te rest ih =>
    unfold settleWorker
    split
    · simp
    · split
      · split
        · split <;> simp
        · exact ih
      · simp

theorem timeout_message :
    "Scanner error: " ++ errorMessageOf (.str "timeout") = "Scanner error: timeout" := by
  decide

theorem catchAndFinally_outOfFuel (recurse : Options → ProcState → ScanOutput) (opts : Options)
    (g : Bool) (er : Option Engine) (cr : Option Canvas) (s : ProcState)
    (tr : List TraceEvent) :
    catchAndFinally recurse opts g er cr .outOfFuel s tr = ⟨.outOfFuel, s, tr⟩ := rfl

theorem tracePostedIds_postSeq (posts : List (Engine × String)) :
    ∀ s : ProcState,
      tracePostedIds (postSeq s posts) = List.range' s.workerMessageId (countWorkerPosts posts) := by
  induction posts with
  | nil => intro s; simp [postSeq, tracePostedIds, countWorkerPosts]
  | cons pe rest ih =>
    intro s
    obtain ⟨e, ty⟩ := pe
    cases e with
    | worker w =>
      have h2 := ih { s with workerMessageId := s.workerMessageId + 1 }
      simp [postSeq, _postWorkerMessageSync, tracePostedIds, countWorkerPosts,
        List.range'] at h2 ⊢
      exact h2
    | detector di =>
      have h2 := ih s
      simp [postSeq, _postWorkerMessageSync, tracePostedIds, countWorkerPosts] at h2 ⊢
      exact h2

/-! ### Claim theorems -/

/-- C10 (confirmed): both internal retries — the capability-downgrade retry and the
region-less retry — construct their options without a `timeout` entry, so the
re-invoked scan runs with the default 10000 ms deadline rather than the
caller's value. -/
theorem claim10_retries_use_default_timeout :
    ∀ (sr : Option ScanRegion) (c : Canvas) (dr a : Bool) (eR : Option Engine)
      (cR : Option Canvas),
      (capabilityRetryOptions sr c dr a).timeout = none
        ∧ (regionlessRetryOptions eR cR dr).timeout = none
        ∧ effectiveTimeout (capabilityRetryOptions sr c dr a).timeout = 10000
        ∧ effectiveTimeout (regionlessRetryOptions eR cR dr).timeout = 10000 :=
  fun _ _ _ _ _ _ => ⟨rfl, rfl, rfl, rfl⟩

/-- C5 (confirmed): a rejected attempt with a scan region and the fallback flag
set triggers exactly one region-less retry, whose options carry no region and
have the fallback flag disabled; for any options with the fallback flag off, a
rejected attempt propagates its error unchanged whatever the recursion does,
so the retry cannot recurse further and its error reaches the caller. -/
theorem claim5_regionless_retry_at_most_once :
    (∀ (recurse : Options → ProcState → ScanOutput) (opts : Options) (gE : Bool)
        (eR : Option Engine) (cR : Option Canvas) (e : String) (s : ProcState)
        (tr : List TraceEvent) (r : ScanRegion),
        opts.scanRegion = some r → opts.alsoTryWithoutScanRegion = true →
        catchAndFinally recurse opts gE eR cR (.rejected e) s tr =
          ⟨(recurse (regionlessRetryOptions eR cR opts.disallowCanvasResizing) s).outcome,
            (finallyClose gE eR
              (recurse (regionlessRetryOptions eR cR opts.disallowCanvasResizing) s).state).1,
            tr ++ (recurse (regionlessRetryOptions eR cR opts.disallowCanvasResizing) s).trace
              ++ (finallyClose gE eR
                (recurse (regionlessRetryOptions eR cR opts.disallowCanvasResizing) s).state).2⟩)
    ∧ (∀ (eR : Option Engine) (cR : Option Canvas) (dr : Bool),
        (regionlessRetryOptions eR cR dr).scanRegion = none
          ∧ (regionlessRetryOptions eR cR dr).alsoTryWithoutScanRegion = false)
    ∧ (∀ (recurse : Options → ProcState → ScanOutput) (opts2 : Options) (gE : Bool)
        (eR : Option Engine) (cR : Option Canvas) (e : String) (s : ProcState)
        (tr : List TraceEvent),
        opts2.alsoTryWithoutScanRegion = false →
        (catchAndFinally recurse opts2 gE eR cR (.rejected e) s tr).outcome = .rejected e) := by
  refine ⟨?_, ?_, ?_⟩
  · intro recurse opts gE eR cR e s tr r hr ha
    simp [catchAndFinally, hr, ha]
  · intro eR cR dr
    exact ⟨rfl, rfl⟩
  · intro recurse opts2 gE eR cR e s tr ha
    simp [catchAndFinally, ha]

/-- Witness for C5 at a concrete failing retry: a first rejection with a region
and the fallback flag on is replaced by the (likewise failing) region-less retry,
whose error is what the caller sees, followed by the close teardown. -/
theorem claim5_witness :
    catchAndFinally (fun _ st => ⟨.rejected "retry failed", st, []⟩)
      { scanRegion := some {}, alsoTryWithoutScanRegion := true } false none none
      (.rejected "first error") {} []
    = ⟨.rejected "retry failed", {}, [.noopPost "close"]⟩ := by
  have h := claim5_regionless_retry_at_most_once.1
    (fun _ st => ⟨.rejected "retry failed", st, []⟩)
    { scanRegion := some {}, alsoTryWithoutScanRegion := true } false none none
    "first error" {} [] {} rfl rfl
  simpa [finallyClose, _postWorkerMessage, regionlessRetryOptions] using h

/-- C2 (confirmed): on the worker path, once a response whose id matches the
pending request arrives (before the deadline, after any number of
mismatched-id messages), the scan settles by the data field alone — non-null
data resolves with that data, null data rejects with `No QR code found`. -/
theorem claim2_worker_response_decided_by_data :
    ∀ (expectedId : Int) (deadline : Nat) (pre rest : List TimedEvent) (t : Nat)
      (d : Option String),
      (∀ te ∈ pre, te.time < deadline ∧ ∃ id2 d2, te.ev = .msg id2 d2 ∧ id2 ≠ expectedId) →
      t < deadline →
      (∀ x, d = some x →
        settleWorker expectedId deadline (pre ++ ⟨t, .msg expectedId d⟩ :: rest)
          = .resolved ⟨x⟩)
      ∧ (d = none →
        settleWorker expectedId deadline (pre ++ ⟨t, .msg expectedId d⟩ :: rest)
          = .rejected "No QR code found") := by
  intro expectedId deadline pre rest t d
  induction pre with
  | nil =>
    intro _ ht
    constructor
    · intro x hx
      subst hx
      simp [settleWorker, Nat.not_le.mpr ht]
    · intro hx
      subst hx
      simp [settleWorker, Nat.not_le.mpr ht, NO_QR_CODE_FOUND]
  | cons te pre ih =>
    intro hpre ht
    obtain ⟨hte, id2, d2, hev, hne⟩ := hpre te (List.mem_cons_self te pre)
    have hrec := ih (fun te2 h2 => hpre te2 (List.mem_cons_of_mem _ h2)) ht
    have hstep : settleWorker expectedId deadline
        ((te :: pre) ++ ⟨t, .msg expectedId d⟩ :: rest)
        = settleWorker expectedId deadline (pre ++ ⟨t, .msg expectedId d⟩ :: rest) := by
      simp [settleWorker, hev, Nat.not_le.mpr hte, hne]
    exact ⟨fun x hx => hstep.trans (hrec.1 x hx), fun hx => hstep.trans (hrec.2 hx)⟩

/-- Witness for C2: after one mismatched message, a matching response with
data `HELLO` resolves with it. -/
theorem claim2_witness :
    settleWorker 7 10000 ([⟨1, .msg 99 none⟩] ++ ⟨5, .msg 7 (some "HELLO")⟩ :: [])
      = .resolved ⟨"HELLO"⟩ := by
  refine (claim2_worker_response_decided_by_data 7 10000 [⟨1, .msg 99 none⟩] [] 5
    (some "HELLO") ?_ (by decide)).1 "HELLO" rfl
  intro te hte
  simp only [List.mem_singleton] at hte
  subst hte
  exact ⟨by decide, 99, none, rfl, by decide⟩

/-- C7 (confirmed): correlation ids of messages actually posted to workers are
strictly increasing (hence never reused) over any sequence of posting calls,
and a worker response whose id differs from the pending request's expected id
leaves the pending request untouched — listeners attached, timer pending, and
no resolution or rejection. -/
theorem claim7_ids_increasing_and_stale_ignored :
    (∀ (s : ProcState) (posts : List (Engine × String)),
        List.Pairwise (· < ·) (tracePostedIds (postSeq s posts))
          ∧ (tracePostedIds (postSeq s posts)).Nodup)
    ∧ (∀ (p : PendingRequest) (eventId : Int) (eventData : Option String),
        eventId ≠ p.expectedResponseId → onMessage p eventId eventData = (p, none)) := by
  constructor
  · intro s posts
    rw [tracePostedIds_postSeq]
    exact ⟨List.pairwise_lt_range' _ _, List.nodup_range' _ _⟩
  · intro p eventId eventData h
    simp [onMessage, h]

/-- Witness for C7: a response with id 3 against a request expecting id 5 is
dropped with the listener pair and timer intact. -/
theorem claim7_witness :
    (3 : Int) ≠ (5 : Int)
      ∧ onMessage ⟨5, true, true, true⟩ 3 (some "stale") = (⟨5, true, true, true⟩, none) :=
  ⟨by decide, claim7_ids_increasing_and_stale_ignored.2 ⟨5, true, true, true⟩ 3 (some "stale")
    (by decide)⟩

theorem resizeCanvas_dims (sr : Option ScanRegion) (image : Image) (c : Canvas) :
    (resizeCanvas sr image c false).width = canvasTargetWidth sr image
      ∧ (resizeCanvas sr image c false).height = canvasTargetHeight sr image := by
  unfold resizeCanvas
  simp only [Bool.false_eq_true, if_false]
  constructor <;> (split <;> split <;> simp_all [Canvas.setWidth, Canvas.setHeight])

/-- C8 is false as stated: a downscale target of `0` is a given value, yet the
canvas width is set to the (truthy) region width `5`, not to the given target. -/
theorem claim8_counterexample :
    ({ width := some 5, downScaledWidth := some 0 } : ScanRegion).downScaledWidth = some 0
      ∧ (resizeCanvas (some { width := some 5, downScaledWidth := some 0 }) ⟨100, 80⟩
          ⟨20, 30, [1, 2, 3]⟩ false).width = 5
      ∧ (resizeCanvas (some { width := some 5, downScaledWidth := some 0 }) ⟨100, 80⟩
          ⟨20, 30, [1, 2, 3]⟩ false).width ≠ 0 :=
  ⟨rfl, rfl, by decide⟩

/-- C8 (amended): for every projection with resizing allowed onto a scan region
whose dimension fields, when present, are nonzero, the canvas width and height
are set to the region's downscale target if given and otherwise to the
region's width/height (the image's when the region has none); each dimension
write is skipped when the canvas already has that value, so a canvas already
at both target dimensions passes the resize phase unchanged and keeps its
pixel content. -/
theorem claim8_amended (r : ScanRegion) (image : Image) (c : Canvas)
    (hdw : ∀ w, r.downScaledWidth = some w → w ≠ 0)
    (hdh : ∀ h, r.downScaledHeight = some h → h ≠ 0)
    (hw : ∀ w, r.width = some w → w ≠ 0)
    (hh : ∀ h, r.height = some h → h ≠ 0) :
    ((resizeCanvas (some r) image c false).width
        = (match r.downScaledWidth with
            | some w => w
            | none => match r.width with
              | some w => w
              | none => image.width))
      ∧ ((resizeCanvas (some r) image c false).height
        = (match r.downScaledHeight with
            | some h => h
            | none => match r.height with
              | some h => h
              | none => image.height))
      ∧ (c.width = canvasTargetWidth (some r) image →
          c.height = canvasTargetHeight (some r) image →
          resizeCanvas (some r) image c false = c)
      ∧ (∀ (sr : Option ScanRegion) (c0 : Canvas),
          (_drawToCanvas image sr (some c0) false).width = canvasTargetWidth sr image
            ∧ (_drawToCanvas image sr (some c0) false).height
              = canvasTargetHeight sr image) := by
  refine ⟨?_, ?_, ?_, ?_⟩
  · rw [(resizeCanvas_dims (some r) image c).1]
    unfold canvasTargetWidth scanRegionWidthOf jsOrNat
    cases hho : r.downScaledWidth with
    | some w => simp [hho, hdw w hho]
    | none =>
      cases hw2 : r.width with
      | some w => simp [hho, hw2, hw w hw2]
      | none => simp [hho, hw2]
  · rw [(resizeCanvas_dims (some r) image c).2]
    unfold canvasTargetHeight scanRegionHeightOf jsOrNat
    cases hho : r.downScaledHeight with
    | some h => simp [hho, hdh h hho]
    | none =>
      cases hh2 : r.height with
      | some h => simp [hho, hh2, hh h hh2]
      | none => simp [hho, hh2]
  · intro hcw hch
    unfold resizeCanvas
    simp [hcw, hch]
  · intro sr c0
    unfold _drawToCanvas
    exact resizeCanvas_dims sr image c0

/-- Witness for C8 at a concrete region with a nonzero downscale target: a
canvas already at the target dimensions passes the resize phase unchanged. -/
theorem claim8_witness :
    resizeCanvas (some { width := some 5, downScaledWidth := some 4 }) ⟨100, 80⟩
      ⟨4, 80, [9, 9]⟩ false = ⟨4, 80, [9, 9]⟩ :=
  (claim8_amended { width := some 5, downScaledWidth := some 4 } ⟨100, 80⟩ ⟨4, 80, [9, 9]⟩
    (fun w hw2 => by injection hw2 with h2; omega)
    (fun h hh2 => by cases hh2)
    (fun w hw2 => by injection hw2 with h2; omega)
    (fun h hh2 => by cases hh2)).2.2.1 rfl rfl

/-- C9 (confirmed): when the high-entropy environment probe is absent
(`navigator.userAgentData` missing) engine selection still yields an engine
(it does not reject for that reason); when the probe is consulted and its
promise rejects, the `.catch` treats the environment as excluded and a worker
engine is produced. -/
theorem claim9_probe_conservative :
    (∀ (flag : Bool) (env : EngineEnv) (formats : List String),
        env.userAgentData = none → env.supportedFormats = .ok formats →
        ∃ e, createQrEngine flag env = .ok e)
    ∧ (∀ (env : EngineEnv) (uad : UserAgentData) (formats : List String),
        env.barcodeDetectorInWindow = true → env.hasGetSupportedFormats = true →
        env.supportedFormats = .ok formats → formats.contains "qr_code" = true →
        env.userAgentData = some uad →
        uad.brands.any (fun b => strContainsCI b.brand "chromium") = true →
        (strContainsCI uad.platform "macos" || strContainsCI uad.platform "mac os") = true →
        uad.highEntropy = .error () →
        createQrEngine false env = .ok (.worker env.workerId)) := by
  constructor
  · intro flag env formats huad hok
    unfold createQrEngine
    split
    · exact ⟨_, rfl⟩
    · split
      · exact ⟨_, rfl⟩
      · rw [hok]
        simp only [isChromiumOnMacWithArmVentura, huad]
        split
        · exact ⟨_, rfl⟩
        · split
          · exact ⟨_, rfl⟩
          · exact ⟨_, rfl⟩
  · intro env uad formats hbw hgsf hok hqr huad hbrand hplat hhe
    simp [createQrEngine, hbw, hgsf, hok, hqr, isChromiumOnMacWithArmVentura, huad,
      hbrand, hplat, hhe]

/-- Witness for C9: a Chromium-on-macOS environment whose high-entropy query
rejects selects the worker engine. -/
theorem claim9_witness :
    createQrEngine false
      ⟨true, true, .ok ["qr_code"], some ⟨"macOS", [⟨"Chromium", "120"⟩], .error ()⟩, 7, 9⟩
      = .ok (.worker 7) :=
  claim9_probe_conservative.2 _ ⟨"macOS", [⟨"Chromium", "120"⟩], .error ()⟩ ["qr_code"]
    rfl rfl rfl (by decide) rfl (by decide) (by decide) rfl

theorem settleWorker_timeout (id : Int) (dl : Nat) :
    ∀ evs : List TimedEvent,
      (∀ te ∈ evs, settlesFor id te.ev = true → dl ≤ te.time) →
      settleWorker id dl evs = .rejected "Scanner error: timeout" := by
  intro evs
  induction evs with
  | nil => intro _; simp [settleWorker, timeout_message]
  | cons te rest ih =>
    intro hall
    by_cases hdl : dl ≤ te.time
    · simp [settleWorker, hdl, timeout_message]
    · rw [settleWorker]
      rw [if_neg hdl]
      cases hte : te.ev with
      | msg id2 d2 =>
        by_cases hid : id2 = id
        · exact absurd (hall te (List.mem_cons_self _ _) (by simp [settlesFor, hte, hid])) hdl
        · simp only [hid, if_false]
          exact ih (fun te2 h2 h3 => hall te2 (List.mem_cons_of_mem _ h2) h3)
      | err arg =>
        exact absurd (hall te (List.mem_cons_self _ _) (by simp [settlesFor, hte])) hdl

theorem detectorDecode_timeout (recurse : Options → ProcState → ScanOutput)
    (sr : Option ScanRegion) (c : Canvas) (dr a : Bool) (dl delay : Nat)
    (res : Except String (List String)) (s : ProcState) (h : dl ≤ delay) :
    detectorDecode recurse sr c dr a dl delay res s
      = ⟨.rejected "Scanner error: timeout", s, []⟩ := by
  simp [detectorDecode, h]

/-- C6 is false as stated: a caller-supplied timeout of `0` is a given value,
yet the deadline used is 10000 ms (JavaScript `||` treats `0` as falsy), so an
error event at 500 ms still settles the scan instead of an instant timeout. -/
theorem claim6_counterexample :
    effectiveTimeout (some 0) = 10000
      ∧ effectiveTimeout (some 0) ≠ 0
      ∧ (scanImage
          (fun _ => ⟨⟨false, false, .ok [], none, 7, 9⟩, .ok ⟨100, 80⟩,
            [⟨500, .err (.event "boom")⟩], 0, .ok []⟩)
          2 { qrEngine := some (.worker 3), timeout := some 0 } {}).outcome
        = .rejected "Scanner error: boom" :=
  ⟨rfl, by decide, rfl⟩

/-- C6 (amended): on either backend path, if no decode result arrives before
the deadline — `options.timeout` when given and nonzero, otherwise 10000 ms —
the scan rejects with `Scanner error: timeout`; on a worker channel-level
error event it rejects with `Scanner error: <message>` using the event's
message, and with `Unknown Error` when the handler receives no event value. -/
theorem claim6_amended :
    (∀ t, t ≠ 0 → effectiveTimeout (some t) = t)
    ∧ effectiveTimeout none = 10000
    ∧ (∀ (id : Int) (dl : Nat) (evs : List TimedEvent),
        (∀ te ∈ evs, settlesFor id te.ev = true → dl ≤ te.time) →
        settleWorker id dl evs = .rejected "Scanner error: timeout")
    ∧ (∀ (recurse : Options → ProcState → ScanOutput) (sr : Option ScanRegion) (c : Canvas)
        (dr a : Bool) (dl delay : Nat) (res : Except String (List String)) (s : ProcState),
        dl ≤ delay →
        detectorDecode recurse sr c dr a dl delay res s
          = ⟨.rejected "Scanner error: timeout", s, []⟩)
    ∧ (∀ m, m ≠ "" → errorMessageOf (.event m) = m)
    ∧ errorMessageOf .noEvent = "Unknown Error"
    ∧ (∀ (t : Nat) (arg : ErrorArg) (rest : List TimedEvent) (id : Int) (dl : Nat),
        t < dl →
        settleWorker id dl (⟨t, .err arg⟩ :: rest)
          = .rejected ("Scanner error: " ++ errorMessageOf arg))
    ∧ (∀ (world : Nat → AttemptEnv) (n : Nat) (opts : Options) (s : ProcState) (w : Nat)
        (image : Image),
        opts.qrEngine = some (.worker w) → opts.alsoTryWithoutScanRegion = false →
        (world s.callCount).imageLoad = .ok image →
        (∀ te ∈ (world s.callCount).workerEvents,
          settlesFor (s.workerMessageId : Int) te.ev = true →
          effectiveTimeout opts.timeout ≤ te.time) →
        (scanImage world (n + 1) opts s).outcome = .rejected "Scanner error: timeout")
    ∧ (∀ (world : Nat → AttemptEnv) (n : Nat) (opts : Options) (s : ProcState) (d : Nat)
        (image : Image),
        opts.qrEngine = some (.detector d) → opts.alsoTryWithoutScanRegion = false →
        (world s.callCount).imageLoad = .ok image →
        effectiveTimeout opts.timeout ≤ (world s.callCount).detectDelay →
        (scanImage world (n + 1) opts s).outcome = .rejected "Scanner error: timeout") := by
  refine ⟨?_, rfl, settleWorker_timeout, ?_, ?_, rfl, ?_, ?_, ?_⟩
  · intro t ht
    simp [effectiveTimeout, jsOrNat, ht]
  · intro recurse sr c dr a dl delay res s h
    exact detectorDecode_timeout recurse sr c dr a dl delay res s h
  · intro m hm
    simp [errorMessageOf, hm]
  · intro t arg rest id dl ht
    simp [settleWorker, Nat.not_le.mpr ht]
  · intro world n opts s w image hqr ha himg hall
    have hsettle := settleWorker_timeout (s.workerMessageId : Int)
      (effectiveTimeout opts.timeout) (world s.callCount).workerEvents hall
    simp [scanImage, hqr, himg, workerDecode, _postWorkerMessageSync, hsettle,
      catchAndFinally, ha, finallyClose]
  · intro world n opts s d image hqr ha himg hdelay
    simp [scanImage, hqr, himg, detectorDecode_timeout _ _ _ _ _ _ _ _ _ hdelay,
      catchAndFinally, ha, finallyClose]

/-- Witness for C6: a nonzero caller timeout is honoured, an event-free
channel times out, and a pre-deadline error event rejects with its message. -/
theorem claim6_witness :
    effectiveTimeout (some 7) = 7
      ∧ settleWorker 0 10000 [] = .rejected "Scanner error: timeout"
      ∧ (scanImage (fun _ => ⟨⟨false, false, .ok [], none, 7, 9⟩, .ok ⟨100, 80⟩, [], 0, .ok []⟩)
          2 { qrEngine := some (.worker 3) } {}).outcome = .rejected "Scanner error: timeout" :=
  ⟨claim6_amended.1 7 (by decide),
    claim6_amended.2.2.1 0 10000 [] (fun te h _ => absurd h (List.not_mem_nil te)),
    claim6_amended.2.2.2.2.2.2.2.1
      (fun _ => ⟨⟨false, false, .ok [], none, 7, 9⟩, .ok ⟨100, 80⟩, [], 0, .ok []⟩)
      1 { qrEngine := some (.worker 3) } {} 3 ⟨100, 80⟩ rfl rfl rfl
      (fun te h _ => absurd h (List.not_mem_nil te))⟩

/-- C3 (confirmed): a native-detector scan whose `detect` succeeds in time with
zero detections resolves — it does not reject — with `{data: 'No QR code found'}`,
the opposite polarity of the worker path for the same condition. -/
theorem claim3_native_zero_detections_resolves :
    ∀ (world : Nat → AttemptEnv) (n : Nat) (opts : Options) (s : ProcState) (d : Nat)
      (image : Image),
      opts.qrEngine = some (.detector d) →
      (world s.callCount).imageLoad = .ok image →
      (world s.callCount).detectDelay < effectiveTimeout opts.timeout →
      (world s.callCount).detectorResult = .ok [] →
      (scanImage world (n + 1) opts s).outcome = .resolved ⟨"No QR code found"⟩ := by
  intro world n opts s d image hqr himg hdelay hres
  simp [scanImage, hqr, himg, detectorDecode, Nat.not_le.mpr hdelay, hres,
    catchAndFinally, finallyClose, NO_QR_CODE_FOUND]

/-- Witness for C3: a concrete zero-detection run resolves with the sentinel. -/
theorem claim3_witness :
    (scanImage (fun _ => ⟨⟨true, true, .ok ["qr_code"], none, 7, 9⟩, .ok ⟨100, 80⟩, [], 0,
        .ok []⟩) 2 { qrEngine := some (.detector 9) } {}).outcome
      = .resolved ⟨"No QR code found"⟩ :=
  claim3_native_zero_detections_resolves
    (fun _ => ⟨⟨true, true, .ok ["qr_code"], none, 7, 9⟩, .ok ⟨100, 80⟩, [], 0, .ok []⟩)
    1 { qrEngine := some (.detector 9) } {} 9 ⟨100, 80⟩ rfl rfl (by decide) rfl

/-- C4 is false as stated: the capability-error pattern of line 137 has no `i`
flag, so the matching is case-sensitive — `Not Implemented` does not match,
the sticky flag is not set, and the error is rethrown instead of retried. -/
theorem claim4_counterexample :
    strContains "Not Implemented" "not implemented" = false
      ∧ (scanImage (fun _ => ⟨⟨false, false, .ok [], none, 7, 9⟩, .ok ⟨100, 80⟩, [], 0,
            .error "Not Implemented"⟩) 3 { qrEngine := some (.detector 9) } {}).outcome
        = .rejected "Scanner error: Not Implemented"
      ∧ (scanImage (fun _ => ⟨⟨false, false, .ok [], none, 7, 9⟩, .ok ⟨100, 80⟩, [], 0,
            .error "Not Implemented"⟩) 3 { qrEngine := some (.detector 9) }
          {}).state.disableBarcodeDetector = false :=
  ⟨rfl, rfl, rfl⟩

/-- C4 (amended): when a native-detector scan's `detect` rejects in time with a
message matching `not implemented` or `service unavailable` case-sensitively,
the process-wide native-detector-disabled flag is set, the scan is transparently
re-run with the capability-retry options (which carry no engine), the flag is
permanently set afterwards and never cleared by any later call, and every
engine selection under the set flag produces a worker. -/
theorem claim4_amended :
    (∀ (world : Nat → AttemptEnv) (n : Nat) (opts : Options) (s : ProcState) (d : Nat)
        (image : Image) (msg : String),
        opts.qrEngine = some (.detector d) →
        (world s.callCount).imageLoad = .ok image →
        (world s.callCount).detectDelay < effectiveTimeout opts.timeout →
        (world s.callCount).detectorResult = .error msg →
        (strContains msg "not implemented" || strContains msg "service unavailable") = true →
        (scanImage world (n + 1) opts s
            = catchAndFinally (scanImage world n) opts true (some (.detector d))
                (some (_drawToCanvas image opts.scanRegion opts.canvas
                  opts.disallowCanvasResizing))
                (scanImage world n
                  (capabilityRetryOptions opts.scanRegion
                    (_drawToCanvas image opts.scanRegion opts.canvas
                      opts.disallowCanvasResizing)
                    opts.disallowCanvasResizing opts.alsoTryWithoutScanRegion)
                  ⟨true, s.workerMessageId, s.callCount + 1⟩).outcome
                (scanImage world n
                  (capabilityRetryOptions opts.scanRegion
                    (_drawToCanvas image opts.scanRegion opts.canvas
                      opts.disallowCanvasResizing)
                    opts.disallowCanvasResizing opts.alsoTryWithoutScanRegion)
                  ⟨true, s.workerMessageId, s.callCount + 1⟩).state
                (scanImage world n
                  (capabilityRetryOptions opts.scanRegion
                    (_drawToCanvas image opts.scanRegion opts.canvas
                      opts.disallowCanvasResizing)
                    opts.disallowCanvasResizing opts.alsoTryWithoutScanRegion)
                  ⟨true, s.workerMessageId, s.callCount + 1⟩).trace
          ∧ (scanImage world (n + 1) opts s).state.disableBarcodeDetector = true))
    ∧ (∀ (sr : Option ScanRegion) (c : Canvas) (dr a : Bool),
        (capabilityRetryOptions sr c dr a).qrEngine = none)
    ∧ (∀ env2 : EngineEnv, createQrEngine true env2 = .ok (.worker env2.workerId))
    ∧ (∀ (world : Nat → AttemptEnv) (m : Nat) (o : Options) (st : ProcState),
        st.disableBarcodeDetector = true →
        (scanImage world m o st).state.disableBarcodeDetector = true) := by
  refine ⟨?_, fun _ _ _ _ => rfl, fun _ => rfl, fun world m o st h => scanImage_flag_mono world m o st h⟩
  intro world n opts s d image msg hqr himg hdelay hres hmatch
  have heq : scanImage world (n + 1) opts s
      = catchAndFinally (scanImage world n) opts true (some (.detector d))
          (some (_drawToCanvas image opts.scanRegion opts.canvas
            opts.disallowCanvasResizing))
          (scanImage world n
            (capabilityRetryOptions opts.scanRegion
              (_drawToCanvas image opts.scanRegion opts.canvas
                opts.disallowCanvasResizing)
              opts.disallowCanvasResizing opts.alsoTryWithoutScanRegion)
            ⟨true, s.workerMessageId, s.callCount + 1⟩).outcome
          (scanImage world n
            (capabilityRetryOptions opts.scanRegion
              (_drawToCanvas image opts.scanRegion opts.canvas
                opts.disallowCanvasResizing)
              opts.disallowCanvasResizing opts.alsoTryWithoutScanRegion)
            ⟨true, s.workerMessageId, s.callCount + 1⟩).state
          (scanImage world n
            (capabilityRetryOptions opts.scanRegion
              (_drawToCanvas image opts.scanRegion opts.canvas
                opts.disallowCanvasResizing)
              opts.disallowCanvasResizing opts.alsoTryWithoutScanRegion)
            ⟨true, s.workerMessageId, s.callCount + 1⟩).trace := by
    simp [scanImage, hqr, himg, detectorDecode, Nat.not_le.mpr hdelay, hres, hmatch]
  refine ⟨heq, ?_⟩
  rw [heq]
  exact catchAndFinally_flag _ _ _ _ _ _ _ _
    (fun o2 s2 h2 => scanImage_flag_mono world n o2 s2 h2)
    (scanImage_flag_mono world n _ _ rfl)

/-- Witness for C4: a concrete `service unavailable` rejection leaves the
sticky flag permanently set. -/
theorem claim4_witness :
    (scanImage (fun _ => ⟨⟨false, false, .ok [], none, 7, 9⟩, .ok ⟨100, 80⟩,
        [⟨5, .msg 1 (some "W")⟩], 0, .error "detection service unavailable"⟩)
      5 { qrEngine := some (.detector 9) } {}).state.disableBarcodeDetector = true :=
  (claim4_amended.1
    (fun _ => ⟨⟨false, false, .ok [], none, 7, 9⟩, .ok ⟨100, 80⟩,
      [⟨5, .msg 1 (some "W")⟩], 0, .error "detection service unavailable"⟩)
    4 { qrEngine := some (.detector 9) } {} 9 ⟨100, 80⟩ "detection service unavailable"
    rfl rfl (by decide) rfl (by decide)).2

theorem finallyClose_close_event (er : Engine) (s : ProcState) :
    ∃ ev, (finallyClose false (some er) s).2 = [ev] ∧ isCloseEventFor er ev = true := by
  cases er with
  | worker w =>
    exact ⟨.workerMessage w s.workerMessageId "close", rfl, by simp [isCloseEventFor]⟩
  | detector d => exact ⟨.noopPost "close", rfl, by simp [isCloseEventFor]⟩

theorem catchAndFinally_last_close (recurse : Options → ProcState → ScanOutput)
    (opts : Options) (er : Engine) (cr : Option Canvas) (o : Outcome) (s : ProcState)
    (tr : List TraceEvent) (ho : o ≠ .outOfFuel) :
    ∃ ev, (catchAndFinally recurse opts false (some er) cr o s tr).trace.getLast? = some ev
      ∧ isCloseEventFor er ev = true := by
  cases o with
  | outOfFuel => exact absurd rfl ho
  | resolved r =>
    obtain ⟨ev, hev, hclose⟩ := finallyClose_close_event er s
    exact ⟨ev, by simp [catchAndFinally, hev, List.getLast?_append_cons], hclose⟩
  | rejected e =>
    simp only [catchAndFinally]
    split
    · obtain ⟨ev, hev, hclose⟩ := finallyClose_close_event er s
      exact ⟨ev, by simp [hev, List.getLast?_append_cons], hclose⟩
    · obtain ⟨ev, hev, hclose⟩ := finallyClose_close_event er
        (recurse (regionlessRetryOptions (some er) cr opts.disallowCanvasResizing) s).state
      exact ⟨ev, by simp [hev, List.getLast?_append_cons, List.append_assoc], hclose⟩

/-- C1 is false as stated: when image loading fails, `Promise.all` rejects
before the local engine variable is assigned, so although the orchestrator's
`createQrEngine` would deliver worker 7, the cleanup posts `close` to an
absent reference and no close message reaches any worker — the internally
created engine is not closed on the image-load-failure path. -/
theorem claim1_counterexample :
    createQrEngine false ⟨false, false, .ok [], none, 7, 9⟩ = .ok (.worker 7)
      ∧ (scanImage (fun _ => ⟨⟨false, false, .ok [], none, 7, 9⟩, .error "Image load error",
            [], 0, .ok []⟩) 3 {} {}).outcome = .rejected "Image load error"
      ∧ (scanImage (fun _ => ⟨⟨false, false, .ok [], none, 7, 9⟩, .error "Image load error",
            [], 0, .ok []⟩) 3 {} {}).trace.filter isWorkerClose = [] :=
  ⟨rfl, rfl, rfl⟩

/-- C1 (amended): for every scan without a caller-supplied engine in which the
combined engine-acquisition/image-load step succeeds, the cleanup step runs
last on every exit path — success, failure, timeout, and after all retries —
and posts the `close` teardown to the engine the orchestrator created (an
actual message for a worker; a no-op posting for a detector, which has no
message channel); when acquisition or image loading itself fails, the cleanup
still runs but the engine reference was never assigned and no close reaches
the created engine. -/
theorem claim1_amended :
    ∀ (world : Nat → AttemptEnv) (n : Nat) (opts : Options) (s : ProcState) (image : Image)
      (engine : Engine),
      opts.qrEngine = none →
      (world s.callCount).imageLoad = .ok image →
      createQrEngine s.disableBarcodeDetector (world s.callCount).engineEnv = .ok engine →
      (scanImage world (n + 1) opts s).outcome ≠ .outOfFuel →
      ∃ ev, (scanImage world (n + 1) opts s).trace.getLast? = some ev
        ∧ isCloseEventFor engine ev = true := by
  intro world n opts s image engine hqr himg heng hfuel
  have hform : ∃ A : ScanOutput,
      scanImage world (n + 1) opts s
        = catchAndFinally (scanImage world n) opts false (some engine)
            (some (_drawToCanvas image opts.scanRegion opts.canvas
              opts.disallowCanvasResizing))
            A.outcome A.state A.trace := by
    cases engine with
    | worker w =>
      refine ⟨workerDecode false w (effectiveTimeout opts.timeout)
        (world s.callCount).workerEvents { s with callCount := s.callCount + 1 }, ?_⟩
      simp [scanImage, hqr, himg, heng]
    | detector dd =>
      refine ⟨detectorDecode (scanImage world n) opts.scanRegion
        (_drawToCanvas image opts.scanRegion opts.canvas opts.disallowCanvasResizing)
        opts.disallowCanvasResizing opts.alsoTryWithoutScanRegion
        (effectiveTimeout opts.timeout) (world s.callCount).detectDelay
        (world s.callCount).detectorResult { s with callCount := s.callCount + 1 }, ?_⟩
      simp [scanImage, hqr, himg, heng]
  obtain ⟨A, hred⟩ := hform
  rw [hred] at hfuel ⊢
  by_cases hA : A.outcome = .outOfFuel
  · rw [hA, catchAndFinally_outOfFuel] at hfuel
    exact absurd rfl hfuel
  · exact catchAndFinally_last_close (scanImage world n) opts engine _ A.outcome A.state
      A.trace hA

/-- Witness for C1: a successful acquisition with no events ends — after the
timeout rejection — with the close teardown of the created worker as the last
posting. -/
theorem claim1_witness :
    ∃ ev, (scanImage (fun _ => ⟨⟨false, false, .ok [], none, 7, 9⟩, .ok ⟨100, 80⟩, [], 0,
        .ok []⟩) 2 {} {}).trace.getLast? = some ev
      ∧ isCloseEventFor (.worker 7) ev = true :=
  claim1_amended
    (fun _ => ⟨⟨false, false, .ok [], none, 7, 9⟩, .ok ⟨100, 80⟩, [], 0, .ok []⟩)
    1 {} {} ⟨100, 80⟩ (.worker 7) rfl rfl rfl (by decide)

end QrScannerModel
